import Mathlib

/-!
Verification of the photobooth repository (backend.py, sender.py, poc.py,
upload.py): a shallow embedding of the batch upload / distribution workflow.

The cloud providers (Google Drive, Twilio) are external collaborators: their
responses (listing pages, generated identifiers, call failures) appear as
inputs to the embedded functions, while the code's own logic (query
construction, pagination loops, URL building, counter updates, error
propagation) is translated directly from the Python source.
-/

/-- Python exception kinds relevant to this program.  `http` models
`googleapiclient.errors.HttpError`, raised by failing Drive calls; `twilio`
models `twilio.base.exceptions.TwilioRestException`, raised by a failing
`client.messages.create` call — a distinct class that `except HttpError`
does not catch; `indexError` models the `IndexError` raised by `[0]` on an
empty list; `unboundLocal` models the `UnboundLocalError` raised by reading
a never-assigned local variable. -/
inductive PyError where
  | http (msg : String)
  | twilio (msg : String)
  | indexError
  | unboundLocal
deriving DecidableEq

/-- A record in a Drive `files().list` response, with the fields the queries
in sender.py mention: `id`, `name`, `mimeType`, `trashed`. -/
structure DriveFile where
  id : String
  name : String
  mimeType : String
  trashed : Bool
deriving DecidableEq

/-- The folder MIME type string used throughout the source. -/
def folderMimeType : String := "application/vnd.google-apps.folder"

/-- The query filter of sender.py's getParentFolder (line 133):
`mimeType='application/vnd.google-apps.folder' and trashed=false and
name='{batch_number}'`. -/
def isFolderMatch (batch : String) (f : DriveFile) : Bool :=
  f.mimeType == folderMimeType && f.trashed == false && f.name == batch

/-- sender.py getParentFolder (lines 121-138).  The provider's paginated
result for the query is `pages`; the function issues a single `files().list`
call with `page_token = None`, so it sees only the first page, and returns
`response.get('files', [])[0].get('id')`: the first record's id, raising
`IndexError` when the first page is empty. -/
def getParentFolder (pages : List (List DriveFile)) : Except PyError String :=
  match pages.headD [] with
  | [] => Except.error PyError.indexError
  | f :: _ => Except.ok f.id

/-- One `files().list` response in sender.py's getURLFromBatchNumber loop:
`fields='nextPageToken, files(id)'`, so a page is a list of object ids plus
an optional continuation token. -/
structure FilePage where
  files : List String
  nextPageToken : Option String
deriving DecidableEq

/-- The URL built at sender.py line 175:
`https://drive.google.com/uc?id=(file id)&export=download`. -/
def mkDownloadUrl (id : String) : String :=
  "https://drive.google.com/uc?id=" ++ id ++ "&export=download"

/-- sender.py getURLFromBatchNumber (lines 156-180).  The provider's page
sequence for the query `'{parent_id}' in parents` is the input; the loop
appends one URL per file id on each page and breaks as soon as a response
carries no `nextPageToken`. -/
def getURLFromBatchNumber : List FilePage → List String
  | [] => []
  | p :: rest =>
    match p.nextPageToken with
    | none => p.files.map mkDownloadUrl
    | some _ => p.files.map mkDownloadUrl ++ getURLFromBatchNumber rest

/-- A page sequence as the provider actually serves it to the loop in
getURLFromBatchNumber: at least one response, every response before the last
carries a continuation token, and the last carries none. -/
def wellPagedB : List FilePage → Bool
  | [] => false
  | [p] => p.nextPageToken.isNone
  | p :: q :: rest => p.nextPageToken.isSome && wellPagedB (q :: rest)

/-- One step of the pagination loop when the response has no token. -/
theorem getURLFromBatchNumber_cons_none (p : FilePage) (rest : List FilePage)
    (h : p.nextPageToken = none) :
    getURLFromBatchNumber (p :: rest) = p.files.map mkDownloadUrl := by
  simp only [getURLFromBatchNumber, h]

/-- One step of the pagination loop when the response has a token. -/
theorem getURLFromBatchNumber_cons_some (p : FilePage) (rest : List FilePage)
    (t : String) (h : p.nextPageToken = some t) :
    getURLFromBatchNumber (p :: rest) =
      p.files.map mkDownloadUrl ++ getURLFromBatchNumber rest := by
  simp only [getURLFromBatchNumber, h]

/-- C1: for every finite well-formed sequence of listing pages,
getURLFromBatchNumber returns exactly one URL per object id on those pages,
in page-and-entry order, and each URL is exactly
`https://drive.google.com/uc?id=(objectId)&export=download`. -/
theorem getURLFromBatchNumber_one_url_per_object (pages : List FilePage)
    (h : wellPagedB pages = true) :
    getURLFromBatchNumber pages =
      ((pages.map FilePage.files).flatten).map mkDownloadUrl := by
  induction pages with
  | nil => simp [wellPagedB] at h
  | cons p rest ih =>
    cases rest with
    | nil =>
      cases hp : p.nextPageToken with
      | none => simp [getURLFromBatchNumber_cons_none p [] hp]
      | some t => simp [wellPagedB, hp] at h
    | cons q rest2 =>
      rw [wellPagedB, Bool.and_eq_true] at h
      obtain ⟨h1, h2⟩ := h
      obtain ⟨t, ht⟩ := Option.isSome_iff_exists.mp h1
      rw [getURLFromBatchNumber_cons_some p (q :: rest2) t ht, ih h2]
      simp

/-- Witness for C1 at a concrete two-page listing. -/
theorem getURLFromBatchNumber_one_url_per_object_witness :
    getURLFromBatchNumber
        [⟨["id1"], some "tok"⟩, ⟨["id2"], none⟩] =
      ["https://drive.google.com/uc?id=id1&export=download",
       "https://drive.google.com/uc?id=id2&export=download"] := by
  have h := getURLFromBatchNumber_one_url_per_object
    [⟨["id1"], some "tok"⟩, ⟨["id2"], none⟩] (by decide)
  exact h.trans rfl

/-- C2: getParentFolder returns the id of the first folder of the listing
result; every returned id belongs to a non-trashed folder named exactly the
batch number (given that the provider answers the query honestly), and a
listing with zero matches makes the call fail with an IndexError rather than
return a default identifier. -/
theorem getParentFolder_first_match (pages : List (List DriveFile))
    (batch : String)
    (hq : ∀ p ∈ pages, ∀ f ∈ p, isFolderMatch batch f = true) :
    (pages.headD [] = [] →
      getParentFolder pages = Except.error PyError.indexError) ∧
    (∀ f rest, pages.headD [] = f :: rest →
      getParentFolder pages = Except.ok f.id ∧
        f.trashed = false ∧ f.name = batch ∧ f.mimeType = folderMimeType) := by
  constructor
  · intro h
    unfold getParentFolder
    rw [h]
  · intro f rest h
    have hmem : f ∈ pages.headD [] := by rw [h]; exact List.mem_cons_self f rest
    have hmatch : isFolderMatch batch f = true := by
      cases pages with
      | nil => simp at hmem
      | cons p0 ps => exact hq p0 (List.mem_cons_self p0 ps) f hmem
    rw [isFolderMatch, Bool.and_eq_true, Bool.and_eq_true] at hmatch
    obtain ⟨⟨hm, htr⟩, hn⟩ := hmatch
    refine ⟨by unfold getParentFolder; rw [h], ?_, ?_, ?_⟩
    · exact beq_iff_eq.mp htr
    · exact beq_iff_eq.mp hn
    · exact beq_iff_eq.mp hm

/-- Witness for C2 at a concrete one-match listing. -/
theorem getParentFolder_first_match_witness :
    getParentFolder [[⟨"F7", "7", folderMimeType, false⟩]] =
      Except.ok "F7" := by
  have h := getParentFolder_first_match
    [[⟨"F7", "7", folderMimeType, false⟩]] "7" (by decide)
  exact (h.2 ⟨"F7", "7", folderMimeType, false⟩ [] rfl).1

/-- C8: the pagination loop of getURLFromBatchNumber exits exactly after the
first page that carries no continuation token — pages after it contribute
nothing and are never requested. -/
theorem getURLFromBatchNumber_stops_at_first_untokened (a : List FilePage)
    (q : FilePage) (b : List FilePage)
    (ha : ∀ p ∈ a, p.nextPageToken.isSome = true)
    (hq : q.nextPageToken = none) :
    getURLFromBatchNumber (a ++ q :: b) = getURLFromBatchNumber (a ++ [q]) := by
  induction a with
  | nil => simp [getURLFromBatchNumber, hq]
  | cons p a2 ih =>
    have h1 : p.nextPageToken.isSome = true := ha p (List.mem_cons_self p a2)
    obtain ⟨t, ht⟩ := Option.isSome_iff_exists.mp h1
    have ih2 := ih (fun x hx => ha x (List.mem_cons_of_mem p hx))
    simp [getURLFromBatchNumber, ht, ih2]

/-- Witness for C8 at a concrete page split. -/
theorem getURLFromBatchNumber_stops_at_first_untokened_witness :
    getURLFromBatchNumber
        [⟨["a"], some "t"⟩, ⟨["b"], none⟩, ⟨["c"], some "x"⟩] =
      getURLFromBatchNumber [⟨["a"], some "t"⟩, ⟨["b"], none⟩] := by
  have h := getURLFromBatchNumber_stops_at_first_untokened
    [⟨["a"], some "t"⟩] ⟨["b"], none⟩ [⟨["c"], some "x"⟩] (by decide) rfl
  simpa using h

/-- The hardcoded root folder id of backend.py (line 22). -/
def PHOTOBOOTH_FOLDER_ID_backend : String := "1Q9AW-f9C_WJGwhdQt3OHpcyMVB964KvY"

/-- The hardcoded root folder id of sender.py and poc.py (line 25 / 22). -/
def PHOTOBOOTH_FOLDER_ID_sender : String := "19sn_fDILV1TsCwqARZJEdPANpseMWuyV"

/-- The initial value of the module-level counter `batch_number = 1`
(backend.py line 23). -/
def batch_number_init : Nat := 1

/-- The folder metadata built by createBatchFolder (backend.py lines 74-78):
`name` is the integer batch number, mimeType the folder type, parents the
fixed root. -/
structure FolderMeta where
  name : Nat
  mimeType : String
  parents : List String
deriving DecidableEq

/-- backend.py createBatchFolder (lines 64-81): builds the metadata from the
current counter, submits the create call, then increments the counter.
Returns the submitted metadata together with the updated counter; the
provider-generated folder id is handled by the caller (see uploaderStep). -/
def createBatchFolder (batch_number : Nat) : FolderMeta × Nat :=
  (⟨batch_number, folderMimeType, [PHOTOBOOTH_FOLDER_ID_backend]⟩,
   batch_number + 1)

/-- The batch numbers consumed by `k` successive successful createBatchFolder
calls starting from counter value `c`: each call names its folder with the
current counter and hands the incremented counter to the next. -/
def consumedBatchNumbers : Nat → Nat → List Nat
  | _, 0 => []
  | c, k + 1 =>
    (createBatchFolder c).1.name :: consumedBatchNumbers (createBatchFolder c).2 k

/-- Helper: from any starting counter the consumed numbers are consecutive. -/
theorem consumedBatchNumbers_eq_range (c k : Nat) :
    consumedBatchNumbers c k = List.range' c k := by
  induction k generalizing c with
  | zero => rfl
  | succ n ih =>
    rw [consumedBatchNumbers, ih]
    rfl

/-- C3: within one uploader run the batch numbers consumed by successive
successful createBatchFolder calls are exactly 1, 2, ..., k — the counter
starts at `batch_number_init = 1`, each call uses the current value and
increments it by one, so there are no gaps and no repeats. -/
theorem batch_numbers_sequential (k : Nat) :
    consumedBatchNumbers batch_number_init k = List.range' 1 k :=
  consumedBatchNumbers_eq_range 1 k

/-- A Twilio message as built by client.messages.create in sendPhotos
(sender.py lines 90-95), together with the provider-assigned `sid`. -/
structure OutboundMessage where
  sid : String
  from_ : String
  media_url : String
  body : String
  to_ : String
deriving DecidableEq

/-- The message built for one URL at sender.py lines 90-95: fixed sender,
the single media URL, the fixed body text, and the recipient formed by
prefixing `whatsapp:` to the phone number. -/
def mkMessage (sid url user_hp : String) : OutboundMessage :=
  { sid := sid
  , from_ := "whatsapp:+14155238886"
  , media_url := url
  , body := "Thank you for coming!"
  , to_ := "whatsapp:" ++ user_hp }

/-- The send loop of sendPhotos (sender.py lines 89-95).  `client k` is the
outcome of the k-th messages.create call: the assigned sid, or the message
of the TwilioRestException the failing call raises.  Returns the messages
actually sent and the first error if one occurred. -/
def sendPhotosAux (client : Nat → Except String String) (user_hp : String) :
    Nat → List String → List OutboundMessage × Option PyError
  | _, [] => ([], none)
  | k, url :: rest =>
    match client k with
    | Except.error e => ([], some (PyError.twilio e))
    | Except.ok sid =>
      (mkMessage sid url user_hp :: (sendPhotosAux client user_hp (k + 1) rest).1,
       (sendPhotosAux client user_hp (k + 1) rest).2)

/-- sender.py sendPhotos (lines 81-96): sends one message per URL, then
prints the sid of the variable `message` — the last message sent.  When the
loop body never ran, `message` was never assigned and reading it raises an
UnboundLocalError. -/
def sendPhotos (client : Nat → Except String String) (urls : List String)
    (user_hp : String) : List OutboundMessage × Except PyError String :=
  match sendPhotosAux client user_hp 0 urls with
  | (msgs, some e) => (msgs, Except.error e)
  | (msgs, none) =>
    match msgs.getLast? with
    | none => (msgs, Except.error PyError.unboundLocal)
    | some m => (msgs, Except.ok m.sid)

/-- Helper: the send loop under an always-successful client sends one
message per URL, in order, pairing the k-th call's sid with the k-th URL. -/
theorem sendPhotosAux_ok (sidf : Nat → String) (hp : String) (urls : List String) :
    ∀ k : Nat,
      sendPhotosAux (fun j => Except.ok (sidf j)) hp k urls =
        ((List.range urls.length).map
            (fun i => mkMessage (sidf (k + i)) (urls.getD i "") hp), none) := by
  induction urls with
  | nil => intro k; rfl
  | cons u rest ih =>
    intro k
    rw [sendPhotosAux]
    rw [ih (k + 1)]
    refine Prod.ext ?_ rfl
    show mkMessage (sidf k) u hp :: _ = _
    rw [List.length_cons, List.range_succ_eq_map, List.map_cons, List.map_map]
    refine congrArg₂ _ rfl ?_
    refine List.map_congr_left ?_
    intro i _
    have hadd : k + 1 + i = k + (i + 1) := by omega
    show mkMessage (sidf (k + 1 + i)) (rest.getD i "") hp = _
    rw [hadd]
    rfl

/-- C4: for every non-empty URL list and phone number, sendPhotos (with all
remote calls succeeding) sends exactly one message per URL in list order —
each with that single media URL, the fixed body "Thank you for coming!",
the fixed sender, and recipient `whatsapp:` ++ phone number (see mkMessage)
— and reports the sid of the last send. -/
theorem sendPhotos_one_message_per_url (sidf : Nat → String)
    (urls : List String) (hp : String) (h : urls ≠ []) :
    sendPhotos (fun j => Except.ok (sidf j)) urls hp =
      ((List.range urls.length).map
          (fun i => mkMessage (sidf i) (urls.getD i "") hp),
       Except.ok (sidf (urls.length - 1))) := by
  have haux := sendPhotosAux_ok sidf hp urls 0
  have hlast : ((List.range urls.length).map
      (fun i => mkMessage (sidf (0 + i)) (urls.getD i "") hp)).getLast? =
      some (mkMessage (sidf (0 + (urls.length - 1)))
        (urls.getD (urls.length - 1) "") hp) := by
    cases urls with
    | nil => exact absurd rfl h
    | cons u rest => simp [List.range_succ, List.getLast?_concat]
  rw [sendPhotos.eq_def, haux]
  simp only [hlast]
  simp [mkMessage]

/-- Witness for C4 at a concrete two-URL send. -/
theorem sendPhotos_one_message_per_url_witness :
    sendPhotos (fun _ => Except.ok "S") ["u1", "u2"] "+6591112222" =
      ([mkMessage "S" "u1" "+6591112222", mkMessage "S" "u2" "+6591112222"],
       Except.ok "S") := by
  have h := sendPhotos_one_message_per_url (fun _ => "S")
    ["u1", "u2"] "+6591112222" (by simp)
  exact h.trans rfl

/-- backend.py isLegitFile (lines 123-132): `os.path.isfile(path)`, with the
local filesystem's set of regular files supplied as `fs`. -/
def isLegitFile (fs : List String) (path : String) : Bool :=
  fs.contains path

/-- The media upload request built by uploadFile (backend.py lines 92-98)
and by each iteration of uploadFiles (poc.py lines 108-114). -/
structure UploadRequest where
  name : String
  parents : List String
  mimetype : String
  resumable : Bool
deriving DecidableEq

/-- backend.py uploadFile (lines 84-102): metadata name is
`path.split('/')[-1]`, parent the given folder id, and the media is built
with the hardcoded `mimetype='image/jpeg'` and `resumable=True`. -/
def uploadFile (path : String) (inner_folder_id : String) : UploadRequest :=
  { name := (path.splitOn "/").getLastD path
  , parents := [inner_folder_id]
  , mimetype := "image/jpeg"
  , resumable := true }

/-- Whether `path` ends with the extension `ext`, checked on the character
lists. -/
def hasExtension (path ext : String) : Bool :=
  List.isSuffixOf ext.toList path.toList

/-- Modelled from the spec: the spec's `uploadOne`/`uploadMany` say the file
is submitted "as a binary upload with inferred content type"; no inference
code exists in src/, so the usual inference-by-extension is modelled here
for comparison with what uploadFile actually submits. -/
def specInferredContentType (path : String) : String :=
  if hasExtension path ".jpg" || hasExtension path ".jpeg" then "image/jpeg"
  else if hasExtension path ".png" then "image/png"
  else if hasExtension path ".gif" then "image/gif"
  else "application/octet-stream"

/-- poc.py getPhotosFromDir (lines 84-96): `os.path.join(path, photo)` over
the directory listing `entries` (modelled for relative entry names and a
directory path without a trailing slash). -/
def getPhotosFromDir (path : String) (entries : List String) : List String :=
  entries.map (fun e => path ++ "/" ++ e)

/-- poc.py uploadFiles (lines 99-118): one upload request per photo in the
directory, each built exactly as in uploadFile. -/
def uploadFiles (path : String) (entries : List String)
    (inner_folder_id : String) : List UploadRequest :=
  (getPhotosFromDir path entries).map (fun photo => uploadFile photo inner_folder_id)

/-- backend.py printUploadingMessage (lines 135-142). -/
def uploadingMessage (path : String) (batch_number : Nat) : String :=
  "[*] Uploading " ++ (path.splitOn "/").getLastD path ++
    " as batch " ++ toString batch_number

/-- The success line printed by uploadFile (backend.py line 102). -/
def fileUploadedMessage (oid : String) : String :=
  "[*] File #" ++ oid ++ " uploaded successfully!"

/-- The lines printed by printFileNotFound (backend.py lines 145-152). -/
def fileNotFoundMessages (path : String) : List String :=
  ["[!] File not found: " ++ path, "[!] Try again!!"]

/-- The in-process and remote state the uploader run accumulates: the global
counter `batch_number`, the created batch folders (provider-assigned id with
the submitted metadata), and the successfully submitted upload requests. -/
structure UploaderState where
  batch_number : Nat
  folders : List (String × FolderMeta)
  requests : List UploadRequest
deriving DecidableEq

/-- One iteration's inputs for backend.py main (lines 163-171): the entered
path, the outcome of the folder-create call (new folder id, or HttpError)
and the outcome of the file-upload call (new object id, or HttpError). -/
structure UploaderInput where
  path : String
  createResult : Except String String
  uploadResult : Except String String

/-- One iteration of the loop in backend.py main (lines 163-171): an invalid
path prints the not-found lines and re-runs the loop leaving everything
unchanged; a valid path prints the uploading line, creates one batch folder
(consuming one batch number) and uploads the file into it.  A remote error
leaves the loop with the state reached so far.  Returns (state, raised
error if any, printed lines). -/
def uploaderStep (fs : List String) (st : UploaderState) (inp : UploaderInput) :
    UploaderState × Option PyError × List String :=
  if isLegitFile fs inp.path = false then
    (st, none, fileNotFoundMessages inp.path)
  else
    match inp.createResult with
    | Except.error e =>
      (st, some (PyError.http e), [uploadingMessage inp.path st.batch_number])
    | Except.ok fid =>
      match inp.uploadResult with
      | Except.error e =>
        ({ st with
            batch_number := (createBatchFolder st.batch_number).2
          , folders := st.folders ++ [(fid, (createBatchFolder st.batch_number).1)] },
         some (PyError.http e), [uploadingMessage inp.path st.batch_number])
      | Except.ok oid =>
        ({ batch_number := (createBatchFolder st.batch_number).2
          , folders := st.folders ++ [(fid, (createBatchFolder st.batch_number).1)]
          , requests := st.requests ++ [uploadFile inp.path fid] },
         none,
         [uploadingMessage inp.path st.batch_number, fileUploadedMessage oid])

/-- backend.py main (lines 155-174): the while-loop inside the single
try/except.  A raised error leaves the loop immediately with the state
reached so far; otherwise the loop continues with the next input. -/
def uploaderRun (fs : List String) :
    UploaderState → List UploaderInput → UploaderState × Option PyError
  | st, [] => (st, none)
  | st, inp :: rest =>
    match uploaderStep fs st inp with
    | (st2, none, _) => uploaderRun fs st2 rest
    | (st2, some e, _) => (st2, some e)

/-- The remote and messaging state the sender run accumulates: folders
granted public read, and messages sent. -/
structure SenderState where
  grants : List String
  sent : List OutboundMessage
deriving DecidableEq

/-- One iteration's inputs for sender.py main (lines 194-200): the entered
phone and batch numbers and the outcome of each remote call — the listing
for getParentFolder, the permissions.create call, the listing pages for
getURLFromBatchNumber, and the per-message Twilio call outcomes. -/
structure SenderInput where
  hp : String
  batch : String
  folderLookup : Except String (List (List DriveFile))
  permResult : Except String Unit
  fileListing : Except String (List FilePage)
  client : Nat → Except String String

/-- One iteration of the loop in sender.py main (lines 194-200): resolve the
batch folder, grant public read on it, collect the download URLs, send the
photos.  A raised error leaves the loop with the state reached so far —
a grant already applied is never rolled back. -/
def senderStep (st : SenderState) (inp : SenderInput) :
    SenderState × Option PyError :=
  match inp.folderLookup with
  | Except.error e => (st, some (PyError.http e))
  | Except.ok pages =>
    match getParentFolder pages with
    | Except.error e => (st, some e)
    | Except.ok parent_id =>
      match inp.permResult with
      | Except.error e => (st, some (PyError.http e))
      | Except.ok _ =>
        match inp.fileListing with
        | Except.error e =>
          ({ st with grants := st.grants ++ [parent_id] }, some (PyError.http e))
        | Except.ok fpages =>
          match sendPhotos inp.client (getURLFromBatchNumber fpages) inp.hp with
          | (msgs, Except.error e) =>
            ({ grants := st.grants ++ [parent_id], sent := st.sent ++ msgs },
             some e)
          | (msgs, Except.ok _) =>
            ({ grants := st.grants ++ [parent_id], sent := st.sent ++ msgs },
             none)

/-- sender.py main (lines 191-203): the while-loop inside the single
try/except. -/
def senderRun : SenderState → List SenderInput → SenderState × Option PyError
  | st, [] => (st, none)
  | st, inp :: rest =>
    match senderStep st inp with
    | (st2, none) => senderRun st2 rest
    | (st2, some e) => (st2, some e)

/-- The except clause of both mains (backend.py line 172, sender.py line
201): only `HttpError` — a remote-provider failure — is caught and printed;
any other exception escapes uncaught. -/
def mainCatches : PyError → Bool
  | PyError.http _ => true
  | _ => false

/-- Helper: the valid-path branch of uploaderStep. -/
theorem uploaderStep_valid (fs : List String) (st : UploaderState)
    (inp : UploaderInput) (fid oid : String)
    (hleg : isLegitFile fs inp.path = true)
    (hc : inp.createResult = Except.ok fid)
    (hu : inp.uploadResult = Except.ok oid) :
    uploaderStep fs st inp =
      ({ batch_number := st.batch_number + 1
        , folders := st.folders ++ [(fid, (createBatchFolder st.batch_number).1)]
        , requests := st.requests ++ [uploadFile inp.path fid] },
       none,
       [uploadingMessage inp.path st.batch_number, fileUploadedMessage oid]) := by
  rw [uploaderStep, hleg, hc, hu]
  simp [createBatchFolder]

/-- Helper: the invalid-path branch of uploaderStep. -/
theorem uploaderStep_invalid (fs : List String) (st : UploaderState)
    (inp : UploaderInput) (hleg : isLegitFile fs inp.path = false) :
    uploaderStep fs st inp = (st, none, fileNotFoundMessages inp.path) := by
  rw [uploaderStep, hleg]
  simp

/-- C5: in each iteration of the uploader's interactive loop an invalid path
emits the not-found lines and re-prompts with the whole state — in
particular the batch counter — unchanged (no batch number consumed, no
folder created, nothing uploaded); only a valid path allocates exactly one
batch folder (named with the current counter, which is then incremented by
one) and uploads the file into it. -/
theorem uploader_loop_frame (fs : List String) (st : UploaderState)
    (inp : UploaderInput) :
    (isLegitFile fs inp.path = false →
      uploaderStep fs st inp = (st, none, fileNotFoundMessages inp.path)) ∧
    (∀ fid oid, isLegitFile fs inp.path = true →
      inp.createResult = Except.ok fid → inp.uploadResult = Except.ok oid →
      uploaderStep fs st inp =
        ({ batch_number := st.batch_number + 1
          , folders := st.folders ++ [(fid, (createBatchFolder st.batch_number).1)]
          , requests := st.requests ++ [uploadFile inp.path fid] },
         none,
         [uploadingMessage inp.path st.batch_number, fileUploadedMessage oid])) :=
  ⟨fun hleg => uploaderStep_invalid fs st inp hleg,
   fun fid oid hleg hc hu => uploaderStep_valid fs st inp fid oid hleg hc hu⟩

/-- Witness for C5: one invalid-path iteration and one valid-path iteration
at concrete inputs. -/
theorem uploader_loop_frame_witness :
    (uploaderStep ["/p/a.jpg"] ⟨1, [], []⟩
        ⟨"/nope", Except.ok "FID", Except.ok "OID"⟩ =
      (⟨1, [], []⟩, none, fileNotFoundMessages "/nope")) ∧
    (uploaderStep ["/p/a.jpg"] ⟨1, [], []⟩
        ⟨"/p/a.jpg", Except.ok "FID", Except.ok "OID"⟩ =
      (⟨2, [("FID", (createBatchFolder 1).1)], [uploadFile "/p/a.jpg" "FID"]⟩,
       none,
       [uploadingMessage "/p/a.jpg" 1, fileUploadedMessage "OID"])) := by
  constructor
  · exact (uploader_loop_frame ["/p/a.jpg"] ⟨1, [], []⟩
      ⟨"/nope", Except.ok "FID", Except.ok "OID"⟩).1 (by decide)
  · exact (uploader_loop_frame ["/p/a.jpg"] ⟨1, [], []⟩
      ⟨"/p/a.jpg", Except.ok "FID", Except.ok "OID"⟩).2 "FID" "OID"
      (by decide) rfl rfl

/-- Counterexample for C6: in a concrete run whose only remote failure is a
messaging call (client.messages.create raising TwilioRestException), the
run ends at that iteration with the grant already applied, but the escaping
error is not an HttpError, so the top-level `except HttpError` clause does
not catch it and nothing is printed by the handler — refuting the claim
that every storage-or-messaging failure is caught at the top of the run and
printed. -/
theorem messaging_failure_uncaught :
    senderRun ⟨[], []⟩
        [⟨"+6591112222", "3", Except.ok [[⟨"F3", "3", folderMimeType, false⟩]],
          Except.ok (), Except.ok [⟨["id1"], none⟩],
          fun _ => Except.error "Twilio 20500"⟩] =
      (⟨["F3"], []⟩, some (PyError.twilio "Twilio 20500")) ∧
    mainCatches (PyError.twilio "Twilio 20500") = false :=
  ⟨rfl, rfl⟩

/-- C6 (amended): a remote-provider failure in any iteration is fatal for
both runs — the loop stops at the failing iteration with no retry, later
inputs are never processed, the state reached so far (created folders,
applied grants, sent messages) is kept with no rollback, and the error is
reported exactly once as the run's outcome; a storage-call failure
(HttpError) is caught and printed by the top-level except clause, while a
messaging-call failure (TwilioRestException) escapes it uncaught. -/
theorem remote_errors_fatal :
    (∀ (fs : List String) (st : UploaderState) (inp : UploaderInput)
        (rest : List UploaderInput) (st2 : UploaderState) (e : PyError)
        (out : List String),
      uploaderStep fs st inp = (st2, some e, out) →
      uploaderRun fs st (inp :: rest) = (st2, some e)) ∧
    (∀ (fs : List String) (st : UploaderState) (inp : UploaderInput)
        (rest : List UploaderInput) (st2 : UploaderState) (out : List String),
      uploaderStep fs st inp = (st2, none, out) →
      uploaderRun fs st (inp :: rest) = uploaderRun fs st2 rest) ∧
    (∀ (st : SenderState) (inp : SenderInput) (rest : List SenderInput)
        (st2 : SenderState) (e : PyError),
      senderStep st inp = (st2, some e) →
      senderRun st (inp :: rest) = (st2, some e)) ∧
    (∀ (st : SenderState) (inp : SenderInput) (rest : List SenderInput)
        (st2 : SenderState),
      senderStep st inp = (st2, none) →
      senderRun st (inp :: rest) = senderRun st2 rest) ∧
    (∀ msg : String, mainCatches (PyError.http msg) = true) ∧
    (∀ msg : String, mainCatches (PyError.twilio msg) = false) := by
  refine ⟨?_, ?_, ?_, ?_, fun _ => rfl, fun _ => rfl⟩
  · intro fs st inp rest st2 e out h
    rw [uploaderRun, h]
  · intro fs st inp rest st2 out h
    rw [uploaderRun, h]
  · intro st inp rest st2 e h
    rw [senderRun, h]
  · intro st inp rest st2 h
    rw [senderRun, h]

/-- Witness for C6 (amended): a concrete two-iteration sender run whose
first iteration grants public read and then fails on the Twilio send; the
run ends there, the second input is never processed, and the grant is
kept. -/
theorem remote_errors_fatal_witness :
    senderRun ⟨[], []⟩
        [⟨"+6591112222", "3", Except.ok [[⟨"F3", "3", folderMimeType, false⟩]],
          Except.ok (), Except.ok [⟨["id1"], none⟩],
          fun _ => Except.error "Twilio 20429"⟩,
         ⟨"+6591112222", "3", Except.ok [], Except.ok (), Except.ok [],
          fun _ => Except.ok "SID"⟩] =
      (⟨["F3"], []⟩, some (PyError.twilio "Twilio 20429")) :=
  remote_errors_fatal.2.2.1 ⟨[], []⟩
    ⟨"+6591112222", "3", Except.ok [[⟨"F3", "3", folderMimeType, false⟩]],
     Except.ok (), Except.ok [⟨["id1"], none⟩],
     fun _ => Except.error "Twilio 20429"⟩
    [⟨"+6591112222", "3", Except.ok [], Except.ok (), Except.ok [],
      fun _ => Except.ok "SID"⟩]
    ⟨["F3"], []⟩ (PyError.twilio "Twilio 20429") rfl

/-- Counterexample for C7: uploadFile submits a PNG file with the hardcoded
content type image/jpeg, not the content type inferred from the file. -/
theorem uploadFile_mimetype_not_inferred :
    (uploadFile "/tmp/a.png" "F1").mimetype = "image/jpeg" ∧
    specInferredContentType "/tmp/a.png" = "image/png" ∧
    (uploadFile "/tmp/a.png" "F1").mimetype ≠
      specInferredContentType "/tmp/a.png" := by
  refine ⟨rfl, by decide, by decide⟩

/-- C7 (amended): for every input file, the upload operation submits it as a
resumable binary upload with the fixed content type image/jpeg, named after
the path's final component, parented under the given folder identifier, and
the generated object identifier for the file is reported; uploadFiles does
so for every photo of the directory. -/
theorem uploadFile_request_shape (path fid : String) (entries : List String)
    (fs : List String) (st : UploaderState) (inp : UploaderInput) (oid : String) :
    (uploadFile path fid).mimetype = "image/jpeg" ∧
    (uploadFile path fid).resumable = true ∧
    (uploadFile path fid).parents = [fid] ∧
    (uploadFile path fid).name = (path.splitOn "/").getLastD path ∧
    uploadFiles path entries fid =
      (getPhotosFromDir path entries).map (fun p => uploadFile p fid) ∧
    (∀ r ∈ uploadFiles path entries fid,
      r.mimetype = "image/jpeg" ∧ r.parents = [fid] ∧ r.resumable = true) ∧
    (isLegitFile fs inp.path = true → inp.createResult = Except.ok fid →
      inp.uploadResult = Except.ok oid →
      (uploaderStep fs st inp).2.2 =
        [uploadingMessage inp.path st.batch_number, fileUploadedMessage oid]) := by
  refine ⟨rfl, rfl, rfl, rfl, rfl, ?_, ?_⟩
  · intro r hr
    rw [uploadFiles] at hr
    obtain ⟨p, _, rfl⟩ := List.mem_map.mp hr
    exact ⟨rfl, rfl, rfl⟩
  · intro hleg hc hu
    rw [uploaderStep_valid fs st inp fid oid hleg hc hu]

/-- Witness for C7 (amended) at a concrete directory and iteration. -/
theorem uploadFile_request_shape_witness :
    (uploadFile ("/d" ++ "/" ++ "x.png") "F").mimetype = "image/jpeg" ∧
    (uploadFile ("/d" ++ "/" ++ "x.png") "F").parents = ["F"] ∧
    (uploaderStep ["/d/x.png"] ⟨1, [], []⟩
        ⟨"/d/x.png", Except.ok "F", Except.ok "OID"⟩).2.2 =
      [uploadingMessage "/d/x.png" 1, fileUploadedMessage "OID"] := by
  have h := uploadFile_request_shape "/d" "F" ["x.png"] ["/d/x.png"]
    ⟨1, [], []⟩ ⟨"/d/x.png", Except.ok "F", Except.ok "OID"⟩ "OID"
  have hm := h.2.2.2.2.2.1 (uploadFile ("/d" ++ "/" ++ "x.png") "F")
    (by rw [uploadFiles]; exact List.mem_map_of_mem _ (List.mem_singleton_self _))
  exact ⟨hm.1, hm.2.1, h.2.2.2.2.2.2 (by decide) rfl rfl⟩

/-- C9: sendPhotos called with an empty URL list raises an
UnboundLocalError (the final status print reads the loop variable `message`
that was never assigned); hence a distribution iteration whose resolved
batch folder contains zero objects fails only after the public-read grant
has already been applied to that folder. -/
theorem sendPhotos_empty_raises :
    (∀ (client : Nat → Except String String) (hp : String),
      sendPhotos client [] hp = ([], Except.error PyError.unboundLocal)) ∧
    (∀ (st : SenderState) (hp batch : String) (f : DriveFile)
        (client : Nat → Except String String),
      senderStep st
          ⟨hp, batch, Except.ok [[f]], Except.ok (),
           Except.ok [⟨[], none⟩], client⟩ =
        ({ st with grants := st.grants ++ [f.id] },
         some PyError.unboundLocal)) := by
  refine ⟨fun _ _ => rfl, ?_⟩
  intro st hp batch f client
  show (({ grants := st.grants ++ [f.id], sent := st.sent ++ [] } : SenderState),
    some PyError.unboundLocal) = _
  simp

/-- C10: getParentFolder examines only the first page of the listing — its
result is unchanged by dropping every later page — and when the first page
is empty (the first matching folder lies on a later page) it fails with an
IndexError instead of finding that folder. -/
theorem getParentFolder_first_page_only :
    (∀ (p0 : List DriveFile) (rest : List (List DriveFile)),
      getParentFolder (p0 :: rest) = getParentFolder [p0]) ∧
    (∀ rest : List (List DriveFile),
      getParentFolder ([] :: rest) = Except.error PyError.indexError) :=
  ⟨fun _ _ => rfl, fun _ => rfl⟩
